import Mathlib

/-!
Shallow embedding of the Seta enrollment/registration core
(`src/app/models/course.py` and `src/app/models/registration.py`)
and proofs about its specified properties.

Modelling conventions:
* Python `datetime` timestamps are abstract instants modelled as `Int`
  (only ordering and equality of timestamps matter to the core).
* Python `dict` registries (`CourseManager.courses`,
  `RegistrationManager.registrations`) are modelled as insertion-ordered
  lists of their values; `dict.values()` iteration is list order, and key
  lookup / deletion acts on the first (unique) entry with that key.
* Fallible Python code (string parsing that may raise `ValueError`)
  returns `Option`.
-/

namespace Seta

/-- `RegistrationStatus` enum from `registration.py`. -/
inductive RegistrationStatus where
  | enrolled
  | dropped
  | waitlisted
  | pending
deriving DecidableEq, Repr

/-- The `Schedule` dataclass from `course.py`: days, a `"HH:MM-HH:MM"` time
string, and a room. -/
structure Schedule where
  days : List String
  time : String
  room : String
deriving DecidableEq, Repr

/-- The `Course` class attributes set in `Course.__init__` and mutated by its
methods. Timestamps are abstract `Int` instants. -/
structure Course where
  course_id : String
  name : String
  description : String
  credits : Int
  instructor : String
  capacity : Int
  enrolled : Int
  prerequisites : List String
  schedule : Option Schedule
  is_active : Bool
  created_at : Int
  updated_at : Int
deriving DecidableEq, Repr

/-- `Course.__init__(course_id, name, description, credits, instructor,
capacity, prerequisites)`: no validation is performed on any argument;
`enrolled` starts at 0, `schedule` at `None`, `is_active` at `True`, and both
timestamps at the construction instant `now`.  The Python default
`prerequisites=None` together with `prerequisites or []` is modelled by an
`Option` argument collapsed with `getD []` (an explicit empty list also
collapses to the empty list, as in Python). -/
def Course.init (course_id name description : String) (credits : Int)
    (instructor : String) (capacity : Int)
    (prerequisites : Option (List String)) (now : Int) : Course :=
  { course_id := course_id
    name := name
    description := description
    credits := credits
    instructor := instructor
    capacity := capacity
    enrolled := 0
    prerequisites := prerequisites.getD []
    schedule := none
    is_active := true
    created_at := now
    updated_at := now }

/-- `Course.is_full`: `enrolled >= capacity`. -/
def Course.isFull (c : Course) : Bool :=
  c.capacity ≤ c.enrolled

/-- `Course.can_enroll`: `is_active and not is_full()`. -/
def Course.canEnroll (c : Course) : Bool :=
  c.is_active && !c.isFull

/-- `Course.enroll_student`: if `can_enroll()`, increment `enrolled`, bump
`updated_at` and return `True`; otherwise return `False` with no mutation. -/
def Course.enrollStudent (c : Course) (now : Int) : Bool × Course :=
  if c.canEnroll then
    (true, { c with enrolled := c.enrolled + 1, updated_at := now })
  else
    (false, c)

/-- `Course.drop_student`: if `enrolled > 0`, decrement `enrolled`, bump
`updated_at` and return `True`; otherwise return `False` with no mutation. -/
def Course.dropStudent (c : Course) (now : Int) : Bool × Course :=
  if 0 < c.enrolled then
    (true, { c with enrolled := c.enrolled - 1, updated_at := now })
  else
    (false, c)

/-- `Course.get_available_seats`: `max(0, capacity - enrolled)`. -/
def Course.getAvailableSeats (c : Course) : Int :=
  max 0 (c.capacity - c.enrolled)

/-- A single enroll/drop call on a course, tagged with the instant at which
it happens (for the `updated_at` bump). -/
inductive CourseOp where
  | enroll (now : Int)
  | drop (now : Int)
deriving DecidableEq, Repr

/-- Apply one enroll/drop call to a course (discarding the returned Bool). -/
def Course.applyOp (c : Course) : CourseOp → Course
  | .enroll now => (c.enrollStudent now).2
  | .drop now => (c.dropStudent now).2

/-- Run a sequence of enroll/drop calls on a course. -/
def Course.runOps (c : Course) (ops : List CourseOp) : Course :=
  ops.foldl Course.applyOp c

lemma Course.applyOp_capacity (c : Course) (op : CourseOp) :
    (c.applyOp op).capacity = c.capacity := by
  cases op with
  | enroll now =>
      simp only [Course.applyOp, Course.enrollStudent]
      split <;> rfl
  | drop now =>
      simp only [Course.applyOp, Course.dropStudent]
      split <;> rfl

lemma Course.applyOp_inv (c : Course) (op : CourseOp)
    (h : 0 ≤ c.enrolled ∧ c.enrolled ≤ c.capacity) :
    0 ≤ (c.applyOp op).enrolled ∧ (c.applyOp op).enrolled ≤ (c.applyOp op).capacity := by
  obtain ⟨h0, h1⟩ := h
  cases op with
  | enroll now =>
      simp only [Course.applyOp, Course.enrollStudent, Course.canEnroll, Course.isFull]
      split
      · next hc =>
          simp only [Bool.and_eq_true, Bool.not_eq_true', decide_eq_false_iff_not] at hc
          refine ⟨?_, ?_⟩
          · show (0 : Int) ≤ c.enrolled + 1
            omega
          · show c.enrolled + 1 ≤ c.capacity
            omega
      · exact ⟨h0, h1⟩
  | drop now =>
      simp only [Course.applyOp, Course.dropStudent]
      split
      · next hc =>
          refine ⟨?_, ?_⟩
          · show (0 : Int) ≤ c.enrolled - 1
            omega
          · show c.enrolled - 1 ≤ c.capacity
            omega
      · exact ⟨h0, h1⟩

lemma Course.runOps_inv (c : Course) (ops : List CourseOp)
    (h : 0 ≤ c.enrolled ∧ c.enrolled ≤ c.capacity) :
    0 ≤ (c.runOps ops).enrolled ∧ (c.runOps ops).enrolled ≤ (c.runOps ops).capacity := by
  induction ops generalizing c with
  | nil => exact h
  | cons op rest ih =>
      exact ih (c.applyOp op) (Course.applyOp_inv c op h)

/-- **C2.** For every `Course` constructed with positive capacity, after any
sequence of `enroll_student` / `drop_student` calls the invariant
`0 <= enrolled <= capacity` holds. -/
theorem course_enrolled_invariant
    (cid nm desc : String) (credits : Int) (instr : String) (capacity : Int)
    (prereq : Option (List String)) (t0 : Int) (ops : List CourseOp)
    (hcap : 0 < capacity) :
    0 ≤ ((Course.init cid nm desc credits instr capacity prereq t0).runOps ops).enrolled ∧
      ((Course.init cid nm desc credits instr capacity prereq t0).runOps ops).enrolled ≤
        ((Course.init cid nm desc credits instr capacity prereq t0).runOps ops).capacity := by
  apply Course.runOps_inv
  constructor
  · show (0 : Int) ≤ 0
    exact le_refl 0
  · show (0 : Int) ≤ capacity
    omega

/-- Witness for C2: a capacity-1 course after enroll, enroll, drop, drop
still satisfies the invariant. -/
theorem course_enrolled_invariant_witness :
    (0 : Int) < 1 ∧
      (0 ≤ ((Course.init "CS101" "n" "d" 3 "i" 1 none 0).runOps
              [.enroll 1, .enroll 2, .drop 3, .drop 4]).enrolled ∧
        ((Course.init "CS101" "n" "d" 3 "i" 1 none 0).runOps
              [.enroll 1, .enroll 2, .drop 3, .drop 4]).enrolled ≤
          ((Course.init "CS101" "n" "d" 3 "i" 1 none 0).runOps
              [.enroll 1, .enroll 2, .drop 3, .drop 4]).capacity) :=
  ⟨by decide,
    course_enrolled_invariant "CS101" "n" "d" 3 "i" 1 none 0
      [.enroll 1, .enroll 2, .drop 3, .drop 4] (by decide)⟩

/-- **C3.** `enroll_student()` returns `True` and increments `enrolled` by
exactly 1 when the course is active and `enrolled < capacity`; when the
course is full or inactive it returns `False` and leaves the whole course
(every field) unchanged. -/
theorem enroll_student_spec (c : Course) (now : Int) :
    (c.is_active = true → c.enrolled < c.capacity →
      (c.enrollStudent now).1 = true ∧
        (c.enrollStudent now).2.enrolled = c.enrolled + 1) ∧
    ((c.is_active = false ∨ c.capacity ≤ c.enrolled) →
      c.enrollStudent now = (false, c)) := by
  constructor
  · intro hact hlt
    simp [Course.enrollStudent, Course.canEnroll, Course.isFull, hact,
      not_le.mpr hlt]
  · intro hfail
    have hcan : c.canEnroll = false := by
      simp only [Course.canEnroll, Course.isFull]
      rcases hfail with h | h
      · simp [h]
      · simp [h]
    simp [Course.enrollStudent, hcan]

/-- Witness for C3: both branches at concrete courses — an active course
with a free seat enrolls; the same course when full refuses and is
unchanged. -/
theorem enroll_student_spec_witness :
    (((Course.init "C" "n" "d" 3 "i" 2 none 0).enrollStudent 1).1 = true ∧
      ((Course.init "C" "n" "d" 3 "i" 2 none 0).enrollStudent 1).2.enrolled =
        (Course.init "C" "n" "d" 3 "i" 2 none 0).enrolled + 1) ∧
    ({ Course.init "C" "n" "d" 3 "i" 2 none 0 with enrolled := 2 }.enrollStudent 1 =
      (false, { Course.init "C" "n" "d" 3 "i" 2 none 0 with enrolled := 2 })) :=
  ⟨(enroll_student_spec (Course.init "C" "n" "d" 3 "i" 2 none 0) 1).1
      (by decide) (by decide),
    (enroll_student_spec
        { Course.init "C" "n" "d" 3 "i" 2 none 0 with enrolled := 2 } 1).2
      (Or.inr (by decide))⟩

/-- `Course.set_schedule(days, time, room)`: replaces the schedule with a new
`Schedule` value and bumps `updated_at`. -/
def Course.setSchedule (c : Course) (days : List String) (time room : String)
    (now : Int) : Course :=
  { c with schedule := some ⟨days, time, room⟩, updated_at := now }

/-- Python `str.strip()` on a character list: drop whitespace from both
ends. -/
def trimChars (l : List Char) : List Char :=
  ((l.dropWhile Char.isWhitespace).reverse.dropWhile Char.isWhitespace).reverse

/-- Accumulating decimal-digit reader: consumes the whole list; any
non-digit character is a parse failure. -/
def digitsToNat (acc : Nat) : List Char → Option Nat
  | [] => some acc
  | c :: cs =>
      if c.isDigit then digitsToNat (acc * 10 + (c.toNat - '0'.toNat)) cs
      else none

/-- A non-empty all-digit character list read as a natural number. -/
def parseDigits : List Char → Option Nat
  | [] => none
  | c :: cs => digitsToNat 0 (c :: cs)

/-- Python `int(s)` on the strings fed to it by `_time_overlaps`: strip
whitespace, then an optional sign followed by a non-empty run of decimal
digits; anything else raises `ValueError`, modelled as `none`. -/
def parseInt (l : List Char) : Option Int :=
  match trimChars l with
  | '-' :: rest => (parseDigits rest).map (fun n => -(n : Int))
  | '+' :: rest => (parseDigits rest).map (fun n => (n : Int))
  | rest => (parseDigits rest).map (fun n => (n : Int))

/-- Python `str.split(sep)` for a one-character separator: `"".split` yields
one empty field, and each separator occurrence starts a new field. -/
def splitOnChar (sep : Char) : List Char → List (List Char)
  | [] => [[]]
  | c :: cs =>
      let r := splitOnChar sep cs
      if c = sep then [] :: r
      else
        match r with
        | [] => [[c]]
        | h :: t => (c :: h) :: t

/-- The `time_to_minutes` helper inside `Course._time_overlaps`:
`hours, minutes = map(int, time_str.split(':'))` followed by
`hours * 60 + minutes`.  Exactly two `':'`-separated components are required
(otherwise Python raises `ValueError`, modelled as `none`). -/
def timeToMinutes (s : List Char) : Option Int :=
  match splitOnChar ':' s with
  | [h, m] => do
      let hh ← parseInt h
      let mm ← parseInt m
      pure (hh * 60 + mm)
  | _ => none

/-- The `parse_time` helper inside `Course._time_overlaps` combined with the
conversion of both endpoints to minutes: `start, end = time_str.split('-')`
(exactly two components or `ValueError`), each component stripped and
converted. -/
def parseTime (t : String) : Option (Int × Int) :=
  match splitOnChar '-' t.toList with
  | [a, b] => do
      let s ← timeToMinutes (trimChars a)
      let e ← timeToMinutes (trimChars b)
      pure (s, e)
  | _ => none

/-- `Course._time_overlaps(other_time)`: parses both time strings and returns
`not (self_end <= other_start or other_end <= self_start)`.  A parse failure
is a raised `ValueError`, modelled as `none`. -/
def timeOverlaps (selfTime otherTime : String) : Option Bool := do
  let (selfStart, selfEnd) ← parseTime selfTime
  let (otherStart, otherEnd) ← parseTime otherTime
  pure (!(decide (selfEnd ≤ otherStart) || decide (otherEnd ≤ selfStart)))

/-- `Course.conflicts_with(other_course)`: `False` if either course lacks a
schedule; `False` if the day-sets do not intersect; otherwise delegates to
`_time_overlaps` on the two time strings. -/
def Course.conflictsWith (c other : Course) : Option Bool :=
  match c.schedule, other.schedule with
  | some s1, some s2 =>
      if s1.days.any (fun d => s2.days.contains d) then
        timeOverlaps s1.time s2.time
      else
        some false
  | _, _ => some false

/-- **C4.** For two courses with schedules whose day-sets intersect,
`conflicts_with` is true iff the minute intervals `[s1,e1)` and `[s2,e2)`
satisfy `s1 < e2 AND s2 < e1` (so touching intervals do not conflict), and
`conflicts_with` is false whenever either course lacks a schedule or the
day-sets are disjoint — the room plays no role in either case. -/
theorem conflicts_with_spec :
    (∀ (c1 c2 : Course) (s1 s2 : Schedule) (a1 b1 a2 b2 : Int),
      c1.schedule = some s1 → c2.schedule = some s2 →
      s1.days.any (fun d => s2.days.contains d) = true →
      parseTime s1.time = some (a1, b1) →
      parseTime s2.time = some (a2, b2) →
      c1.conflictsWith c2 = some (decide (a1 < b2 ∧ a2 < b1))) ∧
    (∀ (c1 c2 : Course),
      (c1.schedule = none ∨ c2.schedule = none ∨
        ∀ s1 s2, c1.schedule = some s1 → c2.schedule = some s2 →
          s1.days.any (fun d => s2.days.contains d) = false) →
      c1.conflictsWith c2 = some false) := by
  constructor
  · intro c1 c2 s1 s2 a1 b1 a2 b2 h1 h2 hdays hp1 hp2
    simp only [Course.conflictsWith, h1, h2, hdays, if_true]
    simp only [timeOverlaps, hp1, hp2, Option.bind_eq_bind, Option.some_bind]
    congr 1
    by_cases hA : a1 < b2 <;> by_cases hB : a2 < b1
    all_goals simp [hA, hB]
    all_goals omega
  · intro c1 c2 h
    rcases h with h | h | h
    · simp [Course.conflictsWith, h]
    · cases hc1 : c1.schedule <;> simp [Course.conflictsWith, hc1, h]
    · cases hc1 : c1.schedule with
      | none => simp [Course.conflictsWith, hc1]
      | some s1 =>
          cases hc2 : c2.schedule with
          | none => simp [Course.conflictsWith, hc1, hc2]
          | some s2 =>
              have hd := h s1 s2 hc1 hc2
              simp only [Course.conflictsWith, hc1, hc2, hd]
              simp

/-- Witness for C4: `"10:00-11:30"` and `"11:30-13:00"` on a shared day touch
but do not conflict, while `"10:00-11:30"` and `"11:00-12:00"` do conflict;
rooms differ in both cases. -/
theorem conflicts_with_spec_witness :
    ((Course.init "A" "n" "d" 3 "i" 30 none 0).setSchedule
        ["Monday"] "10:00-11:30" "R1" 0).conflictsWith
      ((Course.init "B" "n" "d" 3 "i" 30 none 0).setSchedule
        ["Monday"] "11:30-13:00" "R2" 0) = some false ∧
    ((Course.init "A" "n" "d" 3 "i" 30 none 0).setSchedule
        ["Monday"] "10:00-11:30" "R1" 0).conflictsWith
      ((Course.init "B" "n" "d" 3 "i" 30 none 0).setSchedule
        ["Monday"] "11:00-12:00" "R3" 0) = some true := by
  constructor
  · have h := conflicts_with_spec.1
      ((Course.init "A" "n" "d" 3 "i" 30 none 0).setSchedule
        ["Monday"] "10:00-11:30" "R1" 0)
      ((Course.init "B" "n" "d" 3 "i" 30 none 0).setSchedule
        ["Monday"] "11:30-13:00" "R2" 0)
      ⟨["Monday"], "10:00-11:30", "R1"⟩ ⟨["Monday"], "11:30-13:00", "R2"⟩
      600 690 690 780 rfl rfl (by decide) (by decide) (by decide)
    simpa using h
  · have h := conflicts_with_spec.1
      ((Course.init "A" "n" "d" 3 "i" 30 none 0).setSchedule
        ["Monday"] "10:00-11:30" "R1" 0)
      ((Course.init "B" "n" "d" 3 "i" 30 none 0).setSchedule
        ["Monday"] "11:00-12:00" "R3" 0)
      ⟨["Monday"], "10:00-11:30", "R1"⟩ ⟨["Monday"], "11:00-12:00", "R3"⟩
      600 690 660 720 rfl rfl (by decide) (by decide) (by decide)
    simpa using h

/-- The `Registration` class attributes set in `Registration.__init__` and
mutated by its methods.  The freshly generated UUID is supplied as
`registrationId`; timestamps are abstract `Int` instants.  `drop_date`,
`grade` are nullable. -/
structure Registration where
  registrationId : String
  studentId : String
  courseId : String
  status : RegistrationStatus
  enrollmentDate : Int
  dropDate : Option Int
  grade : Option String
  notes : String
deriving DecidableEq, Repr

/-- `Registration.__init__(student_id, course_id, registration_id)`: status
starts at ENROLLED, `enrollment_date` at the construction instant,
`drop_date`/`grade` at `None` and `notes` empty. -/
def Registration.create (studentId courseId registrationId : String)
    (now : Int) : Registration :=
  { registrationId := registrationId
    studentId := studentId
    courseId := courseId
    status := .enrolled
    enrollmentDate := now
    dropDate := none
    grade := none
    notes := "" }

/-- `Registration.drop_course()`: if status is ENROLLED, set it to DROPPED,
record `drop_date` and return `True`; otherwise return `False` with no
mutation. -/
def Registration.dropCourse (r : Registration) (now : Int) :
    Bool × Registration :=
  if r.status = .enrolled then
    (true, { r with status := .dropped, dropDate := some now })
  else
    (false, r)

/-- `Registration.re_enroll()`: if status is DROPPED, set it to ENROLLED,
clear `drop_date` and return `True`; otherwise return `False` with no
mutation. -/
def Registration.reEnroll (r : Registration) : Bool × Registration :=
  if r.status = .dropped then
    (true, { r with status := .enrolled, dropDate := none })
  else
    (false, r)

/-- `Registration.set_grade(grade)`: unconditional assignment. -/
def Registration.setGrade (r : Registration) (grade : String) : Registration :=
  { r with grade := some grade }

/-- `Registration.add_note(note)`: append with `"; "` if notes are non-empty,
else start the notes with the note. -/
def Registration.addNote (r : Registration) (note : String) : Registration :=
  if r.notes ≠ "" then { r with notes := r.notes ++ "; " ++ note }
  else { r with notes := note }

/-- `Registration.is_active()`: status is ENROLLED. -/
def Registration.isActive (r : Registration) : Bool :=
  r.status = .enrolled

/-- `Registration.is_dropped()`: status is DROPPED. -/
def Registration.isDropped (r : Registration) : Bool :=
  r.status = .dropped

/-- **C7.** `drop_course()` succeeds (returns `True`, sets status DROPPED and
`drop_date`) iff the current status is ENROLLED; `re_enroll()` succeeds
(returns `True`, sets status ENROLLED and clears `drop_date`) iff the
current status is DROPPED; in every other source state each is a no-op
returning `False`; and after a successful drop followed by `re_enroll` the
status is ENROLLED and `drop_date` is null again. -/
theorem registration_drop_reenroll_spec (r : Registration) (now : Int) :
    ((r.dropCourse now).1 = true ↔ r.status = .enrolled) ∧
    (r.status = .enrolled →
      (r.dropCourse now).2.status = .dropped ∧
        (r.dropCourse now).2.dropDate = some now) ∧
    (r.status ≠ .enrolled → r.dropCourse now = (false, r)) ∧
    (r.reEnroll.1 = true ↔ r.status = .dropped) ∧
    (r.status = .dropped →
      r.reEnroll.2.status = .enrolled ∧ r.reEnroll.2.dropDate = none) ∧
    (r.status ≠ .dropped → r.reEnroll = (false, r)) ∧
    (r.status = .enrolled →
      (r.dropCourse now).1 = true ∧
        ((r.dropCourse now).2.reEnroll).1 = true ∧
        ((r.dropCourse now).2.reEnroll).2.status = .enrolled ∧
        ((r.dropCourse now).2.reEnroll).2.dropDate = none) := by
  refine ⟨?_, ?_, ?_, ?_, ?_, ?_, ?_⟩
  · constructor
    · intro h
      by_contra hne
      simp [Registration.dropCourse, hne] at h
    · intro h
      simp [Registration.dropCourse, h]
  · intro h
    simp [Registration.dropCourse, h]
  · intro h
    simp [Registration.dropCourse, h]
  · constructor
    · intro h
      by_contra hne
      simp [Registration.reEnroll, hne] at h
    · intro h
      simp [Registration.reEnroll, h]
  · intro h
    simp [Registration.reEnroll, h]
  · intro h
    simp [Registration.reEnroll, h]
  · intro h
    simp [Registration.dropCourse, Registration.reEnroll, h]

/-- Witness for C7: a fresh (ENROLLED) registration dropped at instant 5 and
re-enrolled is ENROLLED with no `drop_date`; dropping a DROPPED registration
is a refused no-op. -/
theorem registration_drop_reenroll_spec_witness :
    ((((Registration.create "S" "C" "R" 0).dropCourse 5).2.reEnroll).2.status =
        .enrolled ∧
      (((Registration.create "S" "C" "R" 0).dropCourse 5).2.reEnroll).2.dropDate =
        none) ∧
    (((Registration.create "S" "C" "R" 0).dropCourse 5).2.dropCourse 7 =
      (false, ((Registration.create "S" "C" "R" 0).dropCourse 5).2)) := by
  constructor
  · have h :=
      (registration_drop_reenroll_spec (Registration.create "S" "C" "R" 0) 5).2.2.2.2.2.2
        (by decide)
    exact ⟨h.2.2.1, h.2.2.2⟩
  · exact (registration_drop_reenroll_spec
        ((Registration.create "S" "C" "R" 0).dropCourse 5).2 7).2.2.1
      (by decide)

/-- The mutation performed by `RegistrationManager.update_registration_status`
on the looked-up registration: assign the new status, and stamp `drop_date`
only when the new status is DROPPED (any other status leaves `drop_date`
untouched). -/
def Registration.updStatus (r : Registration) (status : RegistrationStatus)
    (now : Int) : Registration :=
  { r with
    status := status
    dropDate := if status = .dropped then some now else r.dropDate }

/-!
`RegistrationManager.registrations` is a `dict` keyed by `registration_id`;
it is modelled as the list of its values in insertion order.  `values()`
iteration is list order, insertion of a fresh key appends, and key lookup /
deletion acts on the first (unique) entry with that key.
-/

/-- `RegistrationManager.get_registration_by_student_and_course`: linear scan
over `registrations.values()` returning the FIRST registration matching the
(student, course) pair, regardless of its status. -/
def getRegistrationByStudentAndCourse (regs : List Registration)
    (studentId courseId : String) : Option Registration :=
  regs.find? fun r =>
    decide (r.studentId = studentId ∧ r.courseId = courseId)

/-- `RegistrationManager.create_registration(student_id, course_id)`: if the
first registration found for the pair is active, return `None` and store
nothing; otherwise construct a new ENROLLED registration (fresh UUID
supplied as `registrationId`) and append it to the registry. -/
def createRegistration (regs : List Registration)
    (studentId courseId registrationId : String) (now : Int) :
    Option Registration × List Registration :=
  match getRegistrationByStudentAndCourse regs studentId courseId with
  | some existing =>
      if existing.isActive then
        (none, regs)
      else
        let r := Registration.create studentId courseId registrationId now
        (some r, regs ++ [r])
  | none =>
      let r := Registration.create studentId courseId registrationId now
      (some r, regs ++ [r])

/-- `RegistrationManager.drop_registration(student_id, course_id)`: look up
the first registration for the pair; if it exists and is active, drop it in
place (which returns `True`); otherwise return `False` with no mutation. -/
def dropRegistration (regs : List Registration)
    (studentId courseId : String) (now : Int) : Bool × List Registration :=
  match regs with
  | [] => (false, [])
  | r :: rs =>
      if r.studentId = studentId ∧ r.courseId = courseId then
        if r.isActive then
          (true, (r.dropCourse now).2 :: rs)
        else
          (false, r :: rs)
      else
        let res := dropRegistration rs studentId courseId now
        (res.1, r :: res.2)

/-- `RegistrationManager.update_registration_status(registration_id,
status)`: look up the registration by id (dict key — first and unique match)
and apply `Registration.updStatus`; `False` if the id is unknown. -/
def updateRegistrationStatus (regs : List Registration)
    (registrationId : String) (status : RegistrationStatus) (now : Int) :
    Bool × List Registration :=
  match regs with
  | [] => (false, [])
  | r :: rs =>
      if r.registrationId = registrationId then
        (true, r.updStatus status now :: rs)
      else
        let res := updateRegistrationStatus rs registrationId status now
        (res.1, r :: res.2)

/-- Counterexample for C6: create a registration, move it to DROPPED through
the registry status update (stamping `drop_date = 5`), then move it back to
ENROLLED through the registry status update — `drop_date` is NOT cleared, so
the registry holds an ENROLLED registration with a non-null `drop_date`. -/
theorem drop_date_only_when_dropped_cex :
    (updateRegistrationStatus
        (updateRegistrationStatus
          (createRegistration [] "S" "C" "R1" 0).2
          "R1" .dropped 5).2
        "R1" .enrolled 9).2 =
      [{ registrationId := "R1", studentId := "S", courseId := "C",
         status := .enrolled, enrollmentDate := 0, dropDate := some 5,
         grade := none, notes := "" }] := by
  decide

/-- A single operation on one registration, drawn from the core's interface:
`drop_course`, `re_enroll`, `set_grade`, `add_note`, and the registry's
`update_registration_status` restricted to a DROPPED target status. -/
inductive RegOp where
  | drop (now : Int)
  | reEnroll
  | setGrade (g : String)
  | addNote (n : String)
  | updStatusDropped (now : Int)
deriving DecidableEq, Repr

/-- Apply one operation to a registration (discarding any returned Bool). -/
def Registration.applyOp (r : Registration) : RegOp → Registration
  | .drop now => (r.dropCourse now).2
  | .reEnroll => r.reEnroll.2
  | .setGrade g => r.setGrade g
  | .addNote n => r.addNote n
  | .updStatusDropped now => r.updStatus .dropped now

lemma Registration.applyOp_dropDateInv (r : Registration) (op : RegOp)
    (h : r.dropDate ≠ none → r.status = .dropped) :
    (r.applyOp op).dropDate ≠ none → (r.applyOp op).status = .dropped := by
  cases op with
  | drop now =>
      simp only [Registration.applyOp, Registration.dropCourse]
      split
      · intro _
        rfl
      · exact h
  | reEnroll =>
      simp only [Registration.applyOp, Registration.reEnroll]
      split
      · intro hd
        exact absurd rfl hd
      · exact h
  | setGrade g =>
      simpa only [Registration.applyOp, Registration.setGrade] using h
  | addNote n =>
      simp only [Registration.applyOp, Registration.addNote]
      split
      · exact h
      · exact h
  | updStatusDropped now =>
      intro _
      rfl

lemma Registration.foldl_dropDateInv (ops : List RegOp) (r : Registration)
    (hr : r.dropDate ≠ none → r.status = .dropped) :
    (ops.foldl Registration.applyOp r).dropDate ≠ none →
      (ops.foldl Registration.applyOp r).status = .dropped := by
  induction ops generalizing r with
  | nil => exact hr
  | cons op rest ih =>
      exact ih (r.applyOp op) (Registration.applyOp_dropDateInv r op hr)

/-- **C6 (amended).** `drop_date` is non-null only while status is DROPPED
after any sequence of `drop_course`, `re_enroll`, `set_grade`, `add_note`
and registry status updates **to DROPPED** from construction; (the claim as
stated fails because a registry status update to a non-DROPPED status does
not clear `drop_date` — see the counterexample). -/
theorem drop_date_only_when_dropped_amended
    (sid cid rid : String) (t0 : Int) (ops : List RegOp)
    (h : (ops.foldl Registration.applyOp
        (Registration.create sid cid rid t0)).dropDate ≠ none) :
    (ops.foldl Registration.applyOp
        (Registration.create sid cid rid t0)).status = .dropped := by
  refine Registration.foldl_dropDateInv ops (Registration.create sid cid rid t0) ?_ h
  intro hd
  exact absurd rfl hd

/-- Witness for C6 (amended): after construction, a drop at instant 5 and a
grade assignment, `drop_date` is non-null and the status is indeed
DROPPED. -/
theorem drop_date_only_when_dropped_amended_witness :
    ([RegOp.drop 5, RegOp.setGrade "A"].foldl Registration.applyOp
        (Registration.create "S" "C" "R" 0)).status = .dropped :=
  drop_date_only_when_dropped_amended "S" "C" "R" 0
    [RegOp.drop 5, RegOp.setGrade "A"] (by decide)

/-- The registry state reached from an empty registry by
`create_registration("S","C")` (uuid "R1", instant 0), then
`drop_registration("S","C")` (instant 1), then
`create_registration("S","C")` (uuid "R2", instant 2).  The pair's first
record "R1" is DROPPED and its second record "R2" is ENROLLED, and the
first-match lookup `get_registration_by_student_and_course` returns the
DROPPED "R1". -/
def pairHistoryState : List Registration :=
  (createRegistration
    (dropRegistration (createRegistration [] "S" "C" "R1" 0).2 "S" "C" 1).2
    "S" "C" "R2" 2).2

/-- **C1 (code bug).**  In the reachable state `pairHistoryState` exactly one
ENROLLED registration for ("S","C") exists, yet `create_registration("S","C")`
returns a new ENROLLED registration and stores it, after which TWO ENROLLED
registrations for the pair coexist: the duplicate-active guard only inspects
the first record found for the pair, which is DROPPED here. -/
theorem create_registration_duplicate_active_bug :
    (pairHistoryState.countP fun r =>
        r.isActive && decide (r.studentId = "S" ∧ r.courseId = "C")) = 1 ∧
    (createRegistration pairHistoryState "S" "C" "R3" 3).1 =
      some (Registration.create "S" "C" "R3" 3) ∧
    ((createRegistration pairHistoryState "S" "C" "R3" 3).2.countP fun r =>
        r.isActive && decide (r.studentId = "S" ∧ r.courseId = "C")) = 2 := by
  decide

/-- **C5 (code bug).**  In the reachable state `pairHistoryState` an ENROLLED
registration for ("S","C") exists ("R2"), yet `drop_registration("S","C")`
returns `False` and changes nothing, because the first-match lookup returns
the DROPPED "R1" and the manager then gives up. -/
theorem drop_registration_misses_active_bug :
    (pairHistoryState.countP fun r =>
        r.isActive && decide (r.studentId = "S" ∧ r.courseId = "C")) = 1 ∧
    dropRegistration pairHistoryState "S" "C" 3 = (false, pairHistoryState) := by
  decide

/-- The removal test of `cleanup_old_registrations`: DROPPED status, non-null
`drop_date`, and `drop_date` strictly older than `now - days_old` (instants
measured in days, so `datetime.now() - timedelta(days=days_old)` is
`now - daysOld`). -/
def shouldRemove (now daysOld : Int) (r : Registration) : Bool :=
  r.isDropped &&
    match r.dropDate with
    | some d => decide (d < now - daysOld)
    | none => false

/-- `RegistrationManager.cleanup_old_registrations(days_old)`: first pass
collects the ids of every registration passing the removal test; second pass
deletes each collected id from the dict, counting one removal per id. -/
def cleanupOldRegistrations (regs : List Registration) (now daysOld : Int) :
    Nat × List Registration :=
  let toRemove := (regs.filter (shouldRemove now daysOld)).map
    (fun r => r.registrationId)
  toRemove.foldl
    (fun st rid =>
      (st.1 + 1, st.2.eraseP (fun r => decide (r.registrationId = rid))))
    (0, regs)

/-- Deleting a batch of dict keys one at a time. -/
def eraseIds (regs : List Registration) (ids : List String) :
    List Registration :=
  ids.foldl
    (fun l rid => l.eraseP (fun r => decide (r.registrationId = rid))) regs

lemma cleanup_foldl_split (ids : List String) (n : Nat)
    (l : List Registration) :
    ids.foldl
        (fun st rid =>
          (st.1 + 1, st.2.eraseP (fun r => decide (r.registrationId = rid))))
        (n, l) =
      (n + ids.length, eraseIds l ids) := by
  induction ids generalizing n l with
  | nil => simp [eraseIds]
  | cons rid rest ih =>
      simp only [List.foldl_cons, eraseIds, List.length_cons]
      rw [ih]
      congr 1
      omega

lemma eraseIds_cons_of_not_mem (r : Registration) (l : List Registration)
    (ids : List String) (h : ∀ rid ∈ ids, r.registrationId ≠ rid) :
    eraseIds (r :: l) ids = r :: eraseIds l ids := by
  induction ids generalizing l with
  | nil => rfl
  | cons rid rest ih =>
      simp only [eraseIds, List.foldl_cons]
      rw [List.eraseP_cons_of_neg]
      · exact ih (l.eraseP (fun r => decide (r.registrationId = rid)))
          (fun x hx => h x (List.mem_cons_of_mem rid hx))
      · simpa using h rid (List.mem_cons_self rid rest)

lemma eraseIds_filter (p : Registration → Bool) (regs : List Registration)
    (hids : (regs.map Registration.registrationId).Nodup) :
    eraseIds regs ((regs.filter p).map (fun r => r.registrationId)) =
      regs.filter (fun r => !p r) := by
  induction regs with
  | nil => rfl
  | cons r rs ih =>
      simp only [List.map_cons, List.nodup_cons] at hids
      obtain ⟨hnotin, hnd⟩ := hids
      by_cases hp : p r
      · rw [List.filter_cons_of_pos hp, List.map_cons]
        show eraseIds ((r :: rs).eraseP
            (fun x => decide (x.registrationId = r.registrationId)))
            ((rs.filter p).map (fun x => x.registrationId)) = _
        rw [List.eraseP_cons_of_pos (by simp)]
        rw [ih hnd]
        rw [List.filter_cons_of_neg (by simp [hp])]
      · rw [List.filter_cons_of_neg (by simp [hp]), List.filter_cons_of_pos (by simp [hp])]
        rw [eraseIds_cons_of_not_mem]
        · rw [ih hnd]
        · intro rid hrid heq
          apply hnotin
          obtain ⟨r', hr', hkey⟩ := List.mem_map.mp hrid
          rw [heq, ← hkey]
          exact List.mem_map_of_mem _ (List.mem_of_mem_filter hr')

/-- **C8.** For every registry state whose registration ids are pairwise
distinct (a dict invariant) and every `days_old`,
`cleanup_old_registrations(days_old)` removes exactly the DROPPED
registrations whose `drop_date` is older than `now - days_old`, returns
their count, and never removes a registration whose status is ENROLLED,
WAITLISTED or PENDING regardless of age. -/
theorem cleanup_old_registrations_spec (regs : List Registration)
    (now daysOld : Int)
    (hids : (regs.map Registration.registrationId).Nodup) :
    cleanupOldRegistrations regs now daysOld =
      ((regs.filter (shouldRemove now daysOld)).length,
        regs.filter (fun r => !shouldRemove now daysOld r)) ∧
    ∀ r ∈ regs, r.status ≠ .dropped →
      r ∈ (cleanupOldRegistrations regs now daysOld).2 := by
  have hmain : cleanupOldRegistrations regs now daysOld =
      ((regs.filter (shouldRemove now daysOld)).length,
        regs.filter (fun r => !shouldRemove now daysOld r)) := by
    unfold cleanupOldRegistrations
    rw [cleanup_foldl_split]
    rw [eraseIds_filter _ _ hids]
    simp
  refine ⟨hmain, ?_⟩
  intro r hr hstat
  rw [hmain]
  apply List.mem_filter.mpr
  refine ⟨hr, ?_⟩
  simp only [shouldRemove, Registration.isDropped, Bool.not_eq_true']
  simp [hstat]

/-- Witness for C8: a registry holding an old DROPPED record, a fresh DROPPED
record and a very old ENROLLED record; `cleanup(365)` at instant 1000
removes exactly the old DROPPED record (count 1) and keeps the 400-day-old
ENROLLED record. -/
theorem cleanup_old_registrations_spec_witness :
    (([{ Registration.create "S1" "C1" "R1" 0 with
            status := .dropped, dropDate := some 100 },
        { Registration.create "S2" "C1" "R2" 0 with
            status := .dropped, dropDate := some 900 },
        Registration.create "S3" "C1" "R3" 600].map
          Registration.registrationId).Nodup ∧
      cleanupOldRegistrations
          [{ Registration.create "S1" "C1" "R1" 0 with
              status := .dropped, dropDate := some 100 },
            { Registration.create "S2" "C1" "R2" 0 with
              status := .dropped, dropDate := some 900 },
            Registration.create "S3" "C1" "R3" 600] 1000 365 =
        (1, [{ Registration.create "S2" "C1" "R2" 0 with
                status := .dropped, dropDate := some 900 },
              Registration.create "S3" "C1" "R3" 600])) := by
  constructor
  · decide
  · have h := (cleanup_old_registrations_spec
      [{ Registration.create "S1" "C1" "R1" 0 with
          status := .dropped, dropDate := some 100 },
        { Registration.create "S2" "C1" "R2" 0 with
          status := .dropped, dropDate := some 900 },
        Registration.create "S3" "C1" "R3" 600] 1000 365 (by decide)).1
    rw [h]
    decide

/-- The dictionary shape produced by `Schedule.to_dict` (keys `days`, `time`,
`room`, always all present) and consumed by `Schedule.from_dict`. -/
structure ScheduleDict where
  days : List String
  time : String
  room : String
deriving DecidableEq, Repr

/-- `Schedule.to_dict`. -/
def Schedule.toDict (s : Schedule) : ScheduleDict :=
  ⟨s.days, s.time, s.room⟩

/-- `Schedule.from_dict`: reads `days`, `time`, `room` (defaulting applies
only to absent keys, which the `to_dict` image never has); no validation of
the time string is performed. -/
def Schedule.fromDict (d : ScheduleDict) : Schedule :=
  ⟨d.days, d.time, d.room⟩

/-- The dictionary shape produced by `Course.to_dict` (all keys present;
`schedule` nullable) and consumed by `Course.from_dict`. -/
structure CourseDict where
  course_id : String
  name : String
  description : String
  credits : Int
  instructor : String
  capacity : Int
  enrolled : Int
  prerequisites : List String
  schedule : Option ScheduleDict
  is_active : Bool
  created_at : Int
  updated_at : Int
deriving DecidableEq, Repr

/-- `Course.to_dict`. -/
def Course.toDict (c : Course) : CourseDict :=
  { course_id := c.course_id
    name := c.name
    description := c.description
    credits := c.credits
    instructor := c.instructor
    capacity := c.capacity
    enrolled := c.enrolled
    prerequisites := c.prerequisites
    schedule := c.schedule.map Schedule.toDict
    is_active := c.is_active
    created_at := c.created_at
    updated_at := c.updated_at }

/-- `Course.from_dict`: construct through `Course.__init__` (at instant
`now`), then overwrite `enrolled`, `is_active`, `created_at`, `updated_at`
from the dictionary, and rebuild the schedule through `Schedule.from_dict`
when the `schedule` entry is present (a present entry from `to_dict` is a
non-empty, hence truthy, dict). -/
def Course.fromDict (d : CourseDict) (now : Int) : Course :=
  let c := Course.init d.course_id d.name d.description d.credits
    d.instructor d.capacity (some d.prerequisites) now
  let c := { c with
    enrolled := d.enrolled
    is_active := d.is_active
    created_at := d.created_at
    updated_at := d.updated_at }
  match d.schedule with
  | some sd => { c with schedule := some (Schedule.fromDict sd) }
  | none => c

/-- **C10.** `Course.from_dict(c.to_dict())` reproduces `c` exactly: every
field (id, name, description, credits, instructor, capacity, enrolled,
prerequisites, schedule with all its fields, active flag, created_at,
updated_at) of the round-tripped course equals the corresponding field of
`c`, whatever instant the deserialisation happens at. -/
theorem course_to_dict_from_dict_roundtrip (c : Course) (now : Int) :
    Course.fromDict (Course.toDict c) now = c := by
  obtain ⟨cid, nm, desc, cr, ins, cap, enr, pre, sch, act, ca, ua⟩ := c
  cases sch with
  | none => rfl
  | some s => cases s; rfl

/-- **C9 (code bug).**  Nothing is rejected at construction time:
`Course.__init__` stores negative credits and a negative capacity verbatim,
and `Schedule.from_dict` stores an unparseable time string verbatim — the
parse failure only surfaces later, when `_time_overlaps` tries to read the
interval. -/
theorem malformed_inputs_accepted_at_construction :
    (Course.init "C1" "n" "d" (-3) "i" (-5) none 0).credits = -3 ∧
    (Course.init "C1" "n" "d" (-3) "i" (-5) none 0).capacity = -5 ∧
    Schedule.fromDict ⟨["Monday"], "garbage", "R"⟩ =
      ⟨["Monday"], "garbage", "R"⟩ ∧
    parseTime "garbage" = none := by
  decide

end Seta
